import Mathlib

/-!
Verification development for the arc-wiki repository.

The repository contains several revisions of the same single-page
application.  We shallowly embed the pure data-processing logic of each
revision:

* `V14` — `src/src/App.tsx` (top revision, cache key `arc_wiki_items_cache_v14`):
  fuzzy-key indexing of quests/projects and the flag classifier.
* `V2`  — `src/src/App.tsx` (second revision, cache key `arc_wiki_items_cache_v2`):
  same cache logic as V14 (modelled by the shared `loadWithCache`).
* `V40` — `src/unnamed/part_001` (cache key `arc_wiki_v40_real_repo_data`):
  the OVERRIDES keyword classifier, the sort comparator, `fetchJson`.
* `V24` — `src/unnamed/part_002` (cache key `arc_wiki_v24_COLOR_FIX`):
  `normalizeItem`, `normalizeDetailItem`, the init linking step,
  `fetchStatic` and `fetchGithubDetail`.

JavaScript numbers are modelled as `Int` (the item records carry integer
weights/values and none of the verified claims depends on float rounding);
`null`/missing fields are modelled as `Option`; JS string truthiness is
modelled by comparison with `""`.
-/

/-- ASCII lower-casing of a single character, modelling the effect of
JavaScript `String.prototype.toLowerCase` on the ASCII range (the data the
app manipulates is ASCII). -/
def charLower (c : Char) : Char :=
  if 'A' ≤ c ∧ c ≤ 'Z' then Char.ofNat (c.toNat + 32) else c

/-- Model of JS `toLowerCase` (ASCII range). -/
def jsToLower (s : String) : String :=
  String.mk (s.toList.map charLower)

/-- ASCII whitespace, as removed by JS `trim`. -/
def isWsChar (c : Char) : Bool :=
  c = ' ' || c = '\t' || c = '\n' || c = '\r'

/-- Model of JS `String.prototype.trim`. -/
def jsTrim (s : String) : String :=
  String.mk (((s.toList.dropWhile isWsChar).reverse.dropWhile isWsChar).reverse)

/-- A character kept by the stripping regex `[^a-z0-9]` (after lowercasing). -/
def isAlnumLower (c : Char) : Bool :=
  ('a' ≤ c && c ≤ 'z') || ('0' ≤ c && c ≤ '9')

/-- Model of `.replace(/[^a-z0-9]/g, '')`. -/
def stripNonAlnum (s : String) : String :=
  String.mk (s.toList.filter isAlnumLower)

/-- `startsWithList pat s` holds when `pat` is a prefix of `s`
(model of JS `String.prototype.startsWith` on char lists). -/
def startsWithList (pat : List Char) : List Char → Bool
  | [] => pat.isEmpty
  | c :: cs =>
    match pat with
    | [] => true
    | p :: ps => p = c && startsWithList ps cs

/-- Model of JS `String.prototype.endsWith`. -/
def endsWithStr (s suffix : String) : Bool :=
  startsWithList suffix.toList.reverse s.toList.reverse

/-- Substring test on char lists (model of JS `String.prototype.includes`). -/
def includesList (pat : List Char) : List Char → Bool
  | [] => pat.isEmpty
  | c :: cs => startsWithList pat (c :: cs) || includesList pat cs

/-- Model of JS `String.prototype.includes`. -/
def strIncludes (s pat : String) : Bool :=
  includesList pat.toList s.toList

/-- Drop an `n`-character suffix and append `post` (model of the guarded
`roman.replace(/ i$/, '1')` rewrites in `generateFuzzyKeys`). -/
def dropSuffixAppend (s : String) (n : Nat) (post : String) : String :=
  String.mk (s.toList.take (s.toList.length - n) ++ post.toList)

/-- Drop an `n`-character prefix (model of the guarded
`lower.replace('arc ', '')` which, under the `startsWith('arc ')` guard,
removes the leading four characters). -/
def dropPrefixChars (s : String) (n : Nat) : String :=
  String.mk (s.toList.drop n)

/-- JS `Set.prototype.add` on a list kept in insertion order. -/
def setAdd (s : List String) (k : String) : List String :=
  if k ∈ s then s else s ++ [k]

/-- Embedding of `generateFuzzyKeys` (src/src/App.tsx lines 38-68).
Produces the candidate key set of a raw identifier: the lowercase trimmed
form, the stripped form, the Roman-numeral-normalized stripped form, and
the `arc `-prefix-stripped form. -/
def generateFuzzyKeys (raw : String) : List String :=
  if raw = "" then []
  else
    let lower := jsTrim (jsToLower raw)
    let keys := [lower]
    let stripped := stripNonAlnum lower
    let keys := setAdd keys stripped
    let roman :=
      if endsWithStr lower " i" then dropSuffixAppend lower 2 "1"
      else if endsWithStr lower " ii" then dropSuffixAppend lower 3 "2"
      else if endsWithStr lower " iii" then dropSuffixAppend lower 4 "3"
      else if endsWithStr lower " iv" then dropSuffixAppend lower 3 "4"
      else lower
    let keys := setAdd keys (stripNonAlnum roman)
    let keys :=
      if startsWithList "arc ".toList lower.toList then
        setAdd keys (stripNonAlnum (dropPrefixChars lower 4))
      else keys
    keys

/-! ### V14 revision (src/src/App.tsx, top): data model and classifier -/

/-- JS `a || b` on a possibly-missing string (`""`, `null` and `undefined`
are falsy). -/
def jsOrStr (a : Option String) (b : String) : String :=
  match a with
  | some s => if s = "" then b else s
  | none => b

/-- JS `Number(x) || d` on a possibly-missing integer field. -/
def jsOrNum (a : Option Int) (d : Int) : Int :=
  match a with
  | some n => if n = 0 then d else n
  | none => d

/-- A cost entry `{item, count}` of a project record. -/
structure CostEntry where
  item : String
  count : Int
deriving Repr, DecidableEq

/-- The fields of a quest record consumed by V14
(`quest.objectives[..].item` and `quest.cost[..].item`; an absent list is
modelled by `[]`, an absent/empty `item` field by `""`). -/
structure QuestV14 where
  objectives : List String
  cost : List String
deriving Repr, DecidableEq

/-- The fields of a project record consumed by V14. -/
structure ProjectV14 where
  name : String
  cost : List CostEntry
deriving Repr, DecidableEq

/-- A raw per-item JSON document of V14, after the `_fileNameId` tag was
attached (absent fields are `none`; `getText` of the plain-string names
the claims use is the string itself). -/
structure RawItemV14 where
  fileNameId : Option String
  id : Option String
  name : String
  rarity : Option String
  type : Option String
  description : String
  weight : Option Int
  max_stack_size : Option Int
  sell_value : Option Int
deriving Repr, DecidableEq

/-- The processed item record of V14 (src/src/App.tsx lines 6-26). -/
structure ProcessedItemV14 where
  id : String
  name : String
  description : String
  rarity : String
  type : String
  weight : Int
  max_stack_size : Int
  sell_value : Int
  imgUrl : String
  isQuestItem : Bool
  isProjectItem : Bool
  isUpgradeItem : Bool
  isSafeToRecycle : Bool
  usedInQuests : List String
  usedInProjects : List String
deriving Repr, DecidableEq

/-- `keys.add` for every fuzzy key of every identifier in `ids`
(the body of `addReq` folded over a reference list). -/
def collectKeys (ids : List String) (acc : List String) : List String :=
  ids.foldl (fun a i => (generateFuzzyKeys i).foldl setAdd a) acc

/-- The item identifiers a quest contributes to the usage index:
`objectives` and `cost` entries with a truthy `item` field
(src/src/App.tsx lines 153-157). -/
def questRefIds (q : QuestV14) : List String :=
  q.objectives.filter (· ≠ "") ++ q.cost.filter (· ≠ "")

/-- The `questKeys` set (src/src/App.tsx lines 148, 152-157). -/
def questKeysOf (quests : List QuestV14) : List String :=
  quests.foldl (fun acc q => collectKeys (questRefIds q) acc) []

/-- The upgrade-name heuristic of V14 (src/src/App.tsx line 162). -/
def projIsUpgradeV14 (p : ProjectV14) : Bool :=
  let pName := jsToLower p.name
  strIncludes pName "upgrade" || strIncludes pName "station" ||
  strIncludes pName "level" || strIncludes pName "gunsmith" ||
  strIncludes pName "medical" || strIncludes pName "bench" ||
  strIncludes pName "stash"

/-- The `upgradeKeys` set: cost keys of upgrade-named projects
(src/src/App.tsx lines 150, 160-173; the source fills `upgradeKeys` and
`projectKeys` in one pass, each cost key of a project going to exactly one
of the two sets, so the two folds below build the same two sets). -/
def upgradeKeysOf (projects : List ProjectV14) : List String :=
  projects.foldl
    (fun acc p =>
      if projIsUpgradeV14 p then collectKeys (p.cost.map (·.item)) acc else acc) []

/-- The `projectKeys` set: cost keys of non-upgrade projects. -/
def projectKeysOf (projects : List ProjectV14) : List String :=
  projects.foldl
    (fun acc p =>
      if projIsUpgradeV14 p then acc else collectKeys (p.cost.map (·.item)) acc) []

/-- `String(item._fileNameId || item.id || "unknown")`. -/
def safeIdV14 (r : RawItemV14) : String :=
  jsOrStr r.fileNameId (jsOrStr r.id "unknown")

/-- The V14 per-item classification and normalization step
(src/src/App.tsx lines 194-225), given the three key sets. -/
def processItemV14 (questKeys projectKeys upgradeKeys : List String)
    (r : RawItemV14) : ProcessedItemV14 :=
  let safeId := safeIdV14 r
  let myKeys := generateFuzzyKeys safeId
  let isQuest := myKeys.any (fun k => questKeys.contains k)
  let isUpgrade := myKeys.any (fun k => upgradeKeys.contains k)
  let isProject := myKeys.any (fun k => projectKeys.contains k) && !isUpgrade
  let isSafe := !isQuest && !isProject && !isUpgrade
  { id := safeId
    name := r.name
    rarity := jsOrStr r.rarity "Common"
    type := jsOrStr r.type "Material"
    description := r.description
    weight := jsOrNum r.weight 0
    max_stack_size := jsOrNum r.max_stack_size 1
    sell_value := jsOrNum r.sell_value 0
    imgUrl := ""
    isQuestItem := isQuest
    isProjectItem := isProject
    isUpgradeItem := isUpgrade
    isSafeToRecycle := isSafe
    usedInQuests := []
    usedInProjects := [] }

/-- The whole V14 processing pipeline after the raw item fetches:
`null` results dropped, items without a filename id or name dropped, then
classification (src/src/App.tsx lines 146-225). -/
def processAllV14 (quests : List QuestV14) (projects : List ProjectV14)
    (rawItems : List (Option RawItemV14)) : List ProcessedItemV14 :=
  let questKeys := questKeysOf quests
  let projectKeys := projectKeysOf projects
  let upgradeKeys := upgradeKeysOf projects
  (rawItems.filterMap id).filter
      (fun r => (r.fileNameId.getD "" ≠ "" : Bool) || (r.name ≠ "" : Bool))
    |>.map (processItemV14 questKeys projectKeys upgradeKeys)

/-! ### V40 revision (src/unnamed/part_001): OVERRIDES classifier and sort -/

/-- The `OVERRIDES.QUEST` keyword list (src/unnamed/part_001 line 210). -/
def OVERRIDES_QUEST : List String :=
  ["Adrenaline", "Unique Uplink", "Drone Tool", "Barricade", "Camera Lens",
   "Antiseptic", "Standard Core", "Syringe", "Surge Splint", "Thumper",
   "Optics Package", "Data Drive", "Memory Chip", "Gyroscope"]

/-- The `OVERRIDES.PROJECT` keyword list (src/unnamed/part_001 line 211). -/
def OVERRIDES_PROJECT : List String :=
  ["Advanced ARC", "Compact Power", "Magnetic Stabilizer", "Cluster Module",
   "Advanced Electrical", "Modulator", "Sensors", "Cooling Fan", "Battery",
   "Light Bulb", "Electrical Component", "Wire", "Durable Cloth",
   "Steel Cabling", "ARC Alloy", "Rubber Parts", "Hard Plastic",
   "Transformer", "Ball Bearing"]

/-- The `OVERRIDES.UPGRADE` keyword list (src/unnamed/part_001 line 212). -/
def OVERRIDES_UPGRADE : List String :=
  ["Angled Grip", "Muzzle", "Scope", "Stock", "Receiver", "Barrel",
   "Magazine", "Tweezers", "Blood Bag", "Monitor", "Pills", "Chemicals",
   "Gas Canister", "Spark Plug", "Fuse", "Bottle", "Gunpowder", "Igniter",
   "Cable", "Screen", "Lens", "Circuit", "Resin", "Canister", "Filter",
   "Toolbox", "Drill", "Fruit", "Vegetable", "Food", "Water", "Seed",
   "Tape", "Glue", "Fabric", "Metal Sheet", "Anvil"]

/-- `checkCategory` (src/unnamed/part_001 line 215):
case-insensitive keyword substring test against a list. -/
def checkCategory (name : String) (list : List String) : Bool :=
  list.any (fun keyword => strIncludes (jsToLower name) (jsToLower keyword))

/-- The processed item record of V40 (src/unnamed/part_001 lines 179-198;
the `craftedBy` connection field is unused by the verified claims and the
used-in lists are filled with `[]` at line 436-437). -/
structure ProcessedItemV40 where
  id : String
  name : String
  description : String
  rarity : String
  type : String
  weight : Int
  max_stack_size : Int
  sell_value : Int
  imgUrl : String
  isQuestItem : Bool
  isProjectItem : Bool
  isUpgradeItem : Bool
  isSafeToRecycle : Bool
  usedInCrafting : List String
  usedInUpgrades : List String
deriving Repr, DecidableEq

/-- The V40 per-item classification step, the "Truth Table Logic"
(src/unnamed/part_001 lines 409-439). -/
def processItemV40 (r : RawItemV14) : ProcessedItemV40 :=
  let name := r.name
  let safeId := jsOrStr r.fileNameId (jsOrStr r.id "unknown")
  let isQuest := checkCategory name OVERRIDES_QUEST
  let isProject := !isQuest && checkCategory name OVERRIDES_PROJECT
  let isUpgrade := !isQuest && !isProject && checkCategory name OVERRIDES_UPGRADE
  let isSafe := !isQuest && !isProject && !isUpgrade
  { id := safeId
    name := name
    rarity := jsOrStr r.rarity "Common"
    type := jsOrStr r.type "Material"
    description := r.description
    weight := jsOrNum r.weight 0
    max_stack_size := jsOrNum r.max_stack_size 1
    sell_value := jsOrNum r.sell_value 0
    imgUrl := ""
    isQuestItem := isQuest
    isProjectItem := isProject
    isUpgradeItem := isUpgrade
    isSafeToRecycle := isSafe
    usedInCrafting := []
    usedInUpgrades := [] }

/-- `RARITY_WEIGHT` of V40 (src/unnamed/part_001 line 217); a rarity
missing from the map weighs `0` (`|| 0`). -/
def RARITY_WEIGHT_V40 (r : String) : Int :=
  if r = "common" then 1
  else if r = "uncommon" then 2
  else if r = "rare" then 3
  else if r = "epic" then 4
  else if r = "legendary" then 5
  else 0

/-- The sort options of V40/V24 (`SortOption`). -/
inductive SortOption where
  | nameOpt | valueHigh | valueLow | rarityHigh | rarityLow | efficiency
deriving Repr, DecidableEq

/-- Model of the default-locale `a.localeCompare(b) ≤ 0`: primary
comparison of the lower-cased strings, case deciding ties (the CLDR
default collation compares base letters before case for the
ASCII-letter-and-space names the app displays). -/
def localeLe (a b : String) : Prop :=
  jsToLower a < jsToLower b ∨ (jsToLower a = jsToLower b ∧ a ≤ b)

instance : DecidableRel localeLe := fun a b => by
  unfold localeLe; infer_instance

/-- `sell_value / (weight || 1)` of the Efficiency comparator, over `ℚ`. -/
def efficiencyOf (sell_value weight : Int) : ℚ :=
  (sell_value : ℚ) / ((if weight = 0 then 1 else weight : Int) : ℚ)

/-- `comparator(a, b) ≤ 0` for the V40 sort (src/unnamed/part_001 lines
468-475), branch by branch: `b.sell_value - a.sell_value ≤ 0` is
`b.sell_value ≤ a.sell_value`, and so on; the final branch is
`a.name.localeCompare(b.name) ≤ 0`. -/
def sortLeV40 (sortBy : SortOption) (a b : ProcessedItemV40) : Prop :=
  match sortBy with
  | .valueHigh => b.sell_value ≤ a.sell_value
  | .valueLow => a.sell_value ≤ b.sell_value
  | .rarityHigh =>
      RARITY_WEIGHT_V40 (jsToLower b.rarity) ≤ RARITY_WEIGHT_V40 (jsToLower a.rarity)
  | .rarityLow =>
      RARITY_WEIGHT_V40 (jsToLower a.rarity) ≤ RARITY_WEIGHT_V40 (jsToLower b.rarity)
  | .efficiency =>
      efficiencyOf b.sell_value b.weight ≤ efficiencyOf a.sell_value a.weight
  | .nameOpt => localeLe a.name b.name

instance (sortBy : SortOption) : DecidableRel (sortLeV40 sortBy) := fun a b => by
  cases sortBy <;> simp only [sortLeV40] <;> infer_instance

/-- The filtered, sorted item list of the V40 `categories` memo
(src/unnamed/part_001 lines 466-475): search filter on the lowercase name,
then `Array.prototype.sort` with the revision's comparator (modelled by a
sort producing an output ordered by `comparator ≤ 0`). -/
def sortedItemsV40 (sortBy : SortOption) (search : String)
    (items : List ProcessedItemV40) : List ProcessedItemV40 :=
  List.insertionSort (sortLeV40 sortBy)
    (items.filter (fun i => strIncludes (jsToLower i.name) (jsToLower search)))

/-! ### V24 revision (src/unnamed/part_002): API data model, normalizers -/

/-- `toSnakeCase` (src/unnamed/part_002 line 12). -/
def toSnakeCase (id : String) : String :=
  if id = "" then ""
  else String.mk ((jsToLower id).toList.map (fun c => if c = '-' then '_' else c))

/-- `safeNum` (src/unnamed/part_002 line 13) on a possibly-missing field:
`Number(undefined)` is `NaN`, which maps to `0`. -/
def safeNum (a : Option Int) : Int := a.getD 0

/-- `stat_block` of a raw API item (src/unnamed/part_002 line 24). -/
structure StatBlock where
  weight : Option Int
  stackSize : Option Int
deriving Repr, DecidableEq

/-- `RawApiItem` (src/unnamed/part_002 lines 16-25). -/
structure RawApiItem where
  id : String
  name : String
  description : Option String
  value : Option Int
  rarity : Option String
  type : Option String
  icon : Option String
  stat_block : Option StatBlock
deriving Repr, DecidableEq

/-- `RawApiQuest` (src/unnamed/part_002 lines 27-34); the loosely-typed
`requirements`/`rewards` arrays are modelled as arrays of item-identifier
strings, which is the shape the quest-matching test probes for. -/
structure RawApiQuest where
  id : String
  name : String
  trader : String
  description : String
  requirements : List String
  rewards : List String
deriving Repr, DecidableEq

/-- `GhTrade` (src/unnamed/part_002 lines 46-50). -/
structure GhTrade where
  itemId : String
  trader : Option String
deriving Repr, DecidableEq

/-- The `cost` field of `GhProject`: either an array of `{item, count}`
entries or a `Record<string, number>` dictionary
(src/unnamed/part_002 line 55). -/
inductive CostRepr where
  | arr (entries : List CostEntry)
  | dict (kvs : List (String × Int))
deriving Repr, DecidableEq

/-- `GhProject` (src/unnamed/part_002 lines 52-56); a falsy `cost` is
`none`. -/
structure GhProjectV24 where
  id : String
  name : String
  cost : Option CostRepr
deriving Repr, DecidableEq

/-- `Ingredient` (src/unnamed/part_002 lines 59-62). -/
structure Ingredient where
  id : String
  count : Int
deriving Repr, DecidableEq

/-- `GlobalGraph` (src/unnamed/part_002 lines 64-67); the two `Map`s are
modelled as association lists with first-match lookup and
replace-or-append update. -/
structure GlobalGraph where
  soldBy : List (String × String)
  usedInProjects : List (String × List String)
deriving Repr, DecidableEq

/-- `Map.prototype.get`. -/
def alGet {β : Type} (m : List (String × β)) (k : String) : Option β :=
  (m.find? (fun e => e.1 == k)).map (·.2)

/-- `Map.prototype.set`. -/
def alSet {β : Type} (m : List (String × β)) (k : String) (v : β) :
    List (String × β) :=
  match m with
  | [] => [(k, v)]
  | (k', v') :: rest => if k' = k then (k, v) :: rest else (k', v') :: alSet rest k v

/-- `ProcessedItem` of V24 (src/unnamed/part_002 lines 69-91). -/
structure ProcessedItemV24 where
  id : String
  name : String
  description : String
  rarity : String
  type : String
  weight : Int
  max_stack_size : Int
  sell_value : Int
  imageUrl : String
  soldBy : Option String
  craftedAt : Option String
  computedIngredients : List Ingredient
  computedRecyclesInto : List Ingredient
  computedUsedInProjects : List String
  computedRelatedQuests : List RawApiQuest
  isQuestItem : Bool
  isProjectItem : Bool
  isUpgradeItem : Bool
  isSafeToRecycle : Bool
deriving Repr, DecidableEq

/-- `normalizeItem` (src/unnamed/part_002 lines 123-149).  Note the
classification defaults: every flag `false` except `isSafeToRecycle`,
which starts `true`. -/
def normalizeItem (raw : RawApiItem) (graph : GlobalGraph) : ProcessedItemV24 :=
  { id := raw.id
    name := raw.name
    description := jsOrStr raw.description "No description available."
    rarity := jsOrStr raw.rarity "Standard"
    type := jsOrStr raw.type "Item"
    weight := safeNum (raw.stat_block.bind (·.weight))
    max_stack_size := safeNum (some (jsOrNum (raw.stat_block.bind (·.stackSize)) 1))
    sell_value := safeNum raw.value
    imageUrl := jsOrStr raw.icon ""
    soldBy := alGet graph.soldBy raw.id
    computedUsedInProjects := (alGet graph.usedInProjects raw.id).getD []
    craftedAt := none
    computedIngredients := []
    computedRecyclesInto := []
    computedRelatedQuests := []
    isQuestItem := false
    isProjectItem := false
    isUpgradeItem := false
    isSafeToRecycle := true }

/-- The `Map` update `list = get(key) || []; if (!list.includes(name))
list.push(name); set(key, list)` shared by both cost-shape branches of the
graph builder. -/
def pushProjectUse (m : List (String × List String)) (key name : String) :
    List (String × List String) :=
  let list := (alGet m key).getD []
  let list := if name ∈ list then list else list ++ [name]
  alSet m key list

/-- The `init` graph-building step (src/unnamed/part_002 lines 313-344). -/
def buildGraphV24 (trades : List GhTrade) (projects : List GhProjectV24) :
    GlobalGraph :=
  let soldBy := trades.foldl
    (fun m t =>
      match t.trader with
      | some tr => if t.itemId ≠ "" ∧ tr ≠ "" then alSet m t.itemId tr else m
      | none => m) []
  let usedIn := projects.foldl
    (fun m p =>
      match p.cost with
      | none => m
      | some (.dict kvs) => kvs.foldl (fun m2 kv => pushProjectUse m2 kv.1 p.name) m
      | some (.arr cs) => cs.foldl (fun m2 c => pushProjectUse m2 c.item p.name) m) []
  ⟨soldBy, usedIn⟩

/-- A JSON array of strings, as `JSON.stringify` prints it. -/
def jsonStrArr (xs : List String) : String :=
  "[" ++ String.intercalate "," (xs.map (fun s => "\"" ++ s ++ "\"")) ++ "]"

/-- `JSON.stringify` of a quest record (field order as parsed from the
API; the identifiers involved need no JSON escaping). -/
def questStringify (q : RawApiQuest) : String :=
  "\x7b\"id\":\"" ++ q.id ++ "\",\"name\":\"" ++ q.name ++
  "\",\"trader\":\"" ++ q.trader ++ "\",\"description\":\"" ++ q.description ++
  "\",\"requirements\":" ++ jsonStrArr q.requirements ++
  ",\"rewards\":" ++ jsonStrArr q.rewards ++ "\x7d"

/-- The quest/flag linking pass of `init`
(src/unnamed/part_002 lines 350-354).  `isSafeToRecycle` is not
reassigned here: it keeps the `true` set by `normalizeItem`. -/
def linkFlagsV24 (quests : List RawApiQuest) (item : ProcessedItemV24) :
    ProcessedItemV24 :=
  let related := quests.filter
    (fun q => strIncludes (questStringify q) ("\"" ++ item.id ++ "\""))
  { item with
    computedRelatedQuests := related
    isQuestItem := related.length != 0
    isUpgradeItem := item.computedUsedInProjects.any
      (fun name => strIncludes (jsToLower name) "upgrade" ||
                   strIncludes (jsToLower name) "module") }

/-- The V24 `init` pipeline after the fetches
(src/unnamed/part_002 lines 307-357). -/
def initV24 (rawItems : List RawApiItem) (quests : List RawApiQuest)
    (trades : List GhTrade) (projects : List GhProjectV24) :
    List ProcessedItemV24 :=
  let graph := buildGraphV24 trades projects
  (rawItems.map (fun i => normalizeItem i graph)).map (linkFlagsV24 quests)

/-- `GhDetailItem` (src/unnamed/part_002 lines 37-44): the `recipe`,
`recycling` and `recyclesInto` records are entry lists; a field absent in
the JSON document is `none` (a present-but-empty record is `some []`). -/
structure GhDetailItem where
  id : String
  recipe : Option (List (String × Int))
  recycling : Option (List (String × Int))
  recyclesInto : Option (List (String × Int))
  craftBench : Option String
deriving Repr, DecidableEq

/-- JS `a || b` between two possibly-absent JSON records: a present
record is truthy even when empty. -/
def jsOrListOpt (a b : Option (List (String × Int))) : Option (List (String × Int)) :=
  match a with
  | some x => some x
  | none => b

/-- JS `a || b` on two optional strings. -/
def jsOrOpt (a b : Option String) : Option String :=
  match a with
  | some s => if s = "" then b else some s
  | none => b

/-- `normalizeDetailItem` (src/unnamed/part_002 lines 151-172). -/
def normalizeDetailItem (base : ProcessedItemV24) (ghData : GhDetailItem) :
    ProcessedItemV24 :=
  let ingredients : List Ingredient :=
    (ghData.recipe.getD []).map (fun e => ⟨toSnakeCase e.1, e.2⟩)
  let recycling : List Ingredient :=
    ((jsOrListOpt ghData.recyclesInto ghData.recycling).getD []).map
      (fun e => ⟨toSnakeCase e.1, e.2⟩)
  { base with
    craftedAt := jsOrOpt ghData.craftBench base.soldBy
    computedIngredients := ingredients
    computedRecyclesInto := recycling
    isProjectItem := ingredients.length != 0 || base.isProjectItem
    isSafeToRecycle := recycling.length != 0 && !base.isQuestItem &&
                       !base.isUpgradeItem && !base.isProjectItem }

/-- `RARITY_WEIGHT` of V24 (src/unnamed/part_002 line 98): V40's map plus
`standard`. -/
def RARITY_WEIGHT_V24 (r : String) : Int :=
  if r = "common" then 1
  else if r = "standard" then 1
  else if r = "uncommon" then 2
  else if r = "rare" then 3
  else if r = "epic" then 4
  else if r = "legendary" then 5
  else 0

/-- `comparator(a, b) ≤ 0` for the V24 sort
(src/unnamed/part_002 lines 391-398), identical to the V40 comparator
except for the rarity map. -/
def sortLeV24 (sortBy : SortOption) (a b : ProcessedItemV24) : Prop :=
  match sortBy with
  | .valueHigh => b.sell_value ≤ a.sell_value
  | .valueLow => a.sell_value ≤ b.sell_value
  | .rarityHigh =>
      RARITY_WEIGHT_V24 (jsToLower b.rarity) ≤ RARITY_WEIGHT_V24 (jsToLower a.rarity)
  | .rarityLow =>
      RARITY_WEIGHT_V24 (jsToLower a.rarity) ≤ RARITY_WEIGHT_V24 (jsToLower b.rarity)
  | .efficiency =>
      efficiencyOf b.sell_value b.weight ≤ efficiencyOf a.sell_value a.weight
  | .nameOpt => localeLe a.name b.name

instance (sortBy : SortOption) : DecidableRel (sortLeV24 sortBy) := fun a b => by
  cases sortBy <;> simp only [sortLeV24] <;> infer_instance

/-- The filtered, sorted item list of the V24 `categories` memo
(src/unnamed/part_002 lines 388-398). -/
def sortedItemsV24 (sortBy : SortOption) (search : String)
    (items : List ProcessedItemV24) : List ProcessedItemV24 :=
  List.insertionSort (sortLeV24 sortBy)
    (items.filter (fun i => strIncludes (jsToLower i.name) (jsToLower search)))

/-! ### Fetch outcomes and the local cache -/

/-- The possible outcomes of an HTTP GET for a JSON list: the request
rejects (network failure), the response is not OK, the body fails to
parse, the body parses to a non-array value, or it parses to an array. -/
inductive ListFetch (α : Type) where
  | netFail
  | notOk
  | okParseFail
  | okNonArray
  | okArray (xs : List α)
deriving Repr, DecidableEq

/-- `fetchJson` of V40 (src/unnamed/part_001 lines 226-235): every
failure shape and every non-array body collapses to `[]`. -/
def fetchJsonV40 {α : Type} : ListFetch α → List α
  | .okArray xs => xs
  | _ => []

/-- What `fetchStatic` of V24 (src/unnamed/part_002 lines 208-214)
evaluates to: failures collapse to `[]`, but a non-array body is returned
as-is (the callers re-check `Array.isArray`). -/
inductive StaticResult (α : Type) where
  | list (xs : List α)
  | nonArray
deriving Repr, DecidableEq

/-- `fetchStatic` of V24. -/
def fetchStaticV24 {α : Type} : ListFetch α → StaticResult α
  | .netFail => .list []
  | .notOk => .list []
  | .okParseFail => .list []
  | .okNonArray => .nonArray
  | .okArray xs => .list xs

/-- The auxiliary dataset acquisition of V14
(src/src/App.tsx lines 138-144): `res.ok ? await res.json() : []`.
Only a non-OK response yields `[]`; a rejected `fetch` or a rejected
`res.json()` escapes to the enclosing `catch`, aborting the whole load
(`Except.error`).  A parsed non-array body is used as-is (`ok none`). -/
def fetchAuxV14 {α : Type} : ListFetch α → Except Unit (Option (List α))
  | .netFail => .error ()
  | .notOk => .ok (some [])
  | .okParseFail => .error ()
  | .okNonArray => .ok none
  | .okArray xs => .ok (some xs)

/-- The outcome of a per-item GitHub detail GET (a single JSON document
rather than a list). -/
inductive DetailFetch where
  | netFail
  | notOk
  | parseFail
  | okDoc (d : GhDetailItem)
deriving Repr, DecidableEq

/-- `fetchGithubDetail` of V24 (src/unnamed/part_002 lines 226-238):
`null` on a non-OK response or any thrown error, the parsed document
otherwise. -/
def fetchGithubDetail : DetailFetch → Option GhDetailItem
  | .netFail => none
  | .notOk => none
  | .parseFail => none
  | .okDoc d => some d

/-- The item shown by the V24 detail view after the just-in-time fetch
(`goDetail`, src/unnamed/part_002 lines 363-379): the enriched item when
a document came back, the already-known summary item on `null`. -/
def goDetailShown (item : ProcessedItemV24) (gh : Option GhDetailItem) :
    ProcessedItemV24 :=
  match gh with
  | some d => normalizeDetailItem item d
  | none => item

/-- A cached entry `{timestamp, data}` as stored in local storage. -/
structure CacheEntry (α : Type) where
  timestamp : Int
  data : List α
deriving Repr, DecidableEq

/-- The state of the local-storage cache key at load time: absent,
present but unparseable, or a parsed entry. -/
inductive CacheState (α : Type) where
  | absent
  | corrupt
  | valid (e : CacheEntry α)
deriving Repr, DecidableEq

/-- What a load produced: the items shown, whether the network was hit,
and the entry written back to the cache (if any). -/
structure LoadResult (α : Type) where
  items : List α
  didFetch : Bool
  stored : Option (CacheEntry α)
deriving Repr, DecidableEq

/-- `CACHE_DURATION` (src/src/App.tsx lines 33 and 404): one hour in
milliseconds. -/
def CACHE_DURATION : Int := 1000 * 60 * 60

/-- The cache discipline shared by V14 (src/src/App.tsx lines 121-131 and
227) and V2 (src/src/App.tsx lines 428-441 and 520-523): a parsed entry
younger than `CACHE_DURATION` is returned without fetching; otherwise the
network result is returned and stored under a fresh timestamp (`fetched`
is the processed result of a successful fetch; a corrupt entry is removed
and the load falls through to the fetch). -/
def loadWithCache {α : Type} (cache : CacheState α) (now : Int)
    (fetched : List α) : LoadResult α :=
  match cache with
  | .valid e =>
      if now - e.timestamp < CACHE_DURATION then ⟨e.data, false, none⟩
      else ⟨fetched, true, some ⟨now, fetched⟩⟩
  | _ => ⟨fetched, true, some ⟨now, fetched⟩⟩

/-- The V40 load (src/unnamed/part_001 lines 375-379): it removes the
cache key unconditionally, never reads it, always fetches, and never
writes an entry back. -/
def loadV40 {α : Type} (_cache : CacheState α) (_now : Int)
    (fetched : List α) : LoadResult α :=
  ⟨fetched, true, none⟩

/-! ### Concrete fixtures (mock records used by witnesses and
counterexamples) -/

/-- The mock raw item `{id:"wire", name:"Wire"}` as a V14/V40 raw item
document. -/
def wireRawV14 : RawItemV14 :=
  ⟨none, some "wire", "Wire", none, none, "", none, none, none⟩

/-- A quest whose objective list references the item `wire`. -/
def wireQuestV14 : QuestV14 := ⟨["wire"], []⟩

/-- A raw item document for the item `anvil`. -/
def anvilRawV14 : RawItemV14 :=
  ⟨none, some "anvil", "Anvil", none, none, "", none, none, none⟩

/-- A project whose name matches none of the upgrade keywords and whose
cost references `anvil`. -/
def tableProjV14 : ProjectV14 := ⟨"Nice Table", [⟨"anvil", 1⟩]⟩

/-- An upgrade-named project whose cost references `anvil`. -/
def benchProjV14 : ProjectV14 := ⟨"Bench Upgrade", [⟨"anvil", 1⟩]⟩

/-- The mock project `{name:"Bench Upgrade", cost:[{item:"wire", count:2}]}`
as a V14 project record. -/
def benchWireProjV14 : ProjectV14 := ⟨"Bench Upgrade", [⟨"wire", 2⟩]⟩

/-- A raw item document whose name "Adrenaline" matches a QUEST keyword
of the V40 OVERRIDES table. -/
def adrenalineRawV40 : RawItemV14 :=
  ⟨none, some "adrenaline", "Adrenaline", none, none, "", none, none, none⟩

/-- A raw item document whose name "Anvil Wire" matches both the PROJECT
keyword "Wire" and the UPGRADE keyword "Anvil" but no QUEST keyword. -/
def anvilWireRawV40 : RawItemV14 :=
  ⟨none, some "anvilwire", "Anvil Wire", none, none, "", none, none, none⟩

/-- A raw item document whose name "Mystery Orb" matches no keyword of
any OVERRIDES list. -/
def orbRawV40 : RawItemV14 :=
  ⟨none, some "mystery_orb", "Mystery Orb", none, none, "", none, none, none⟩

/-- The mock item `{id:"wire", name:"Wire"}` as a V24 raw API item. -/
def wireApiItemV24 : RawApiItem :=
  ⟨"wire", "Wire", none, none, none, none, none, none⟩

/-- A V24 quest record whose requirements reference the item `wire`. -/
def wireQuestV24 : RawApiQuest :=
  ⟨"q1", "Fix It", "Tian Wen", "Bring wire", ["wire"], []⟩

/-- The mock project `{name:"Bench Upgrade", cost:[{item:"wire", count:2}]}`
as a V24 GitHub project record. -/
def benchProjV24 : GhProjectV24 :=
  ⟨"p1", "Bench Upgrade", some (.arr [⟨"wire", 2⟩])⟩

/-! ### Helper lemmas -/

theorem mem_setAdd_self (s : List String) (k : String) : k ∈ setAdd s k := by
  unfold setAdd
  by_cases h : k ∈ s
  · simp only [if_pos h]
    exact h
  · simp [h]

theorem mem_setAdd_of_mem {s : List String} {a : String} (k : String)
    (h : a ∈ s) : a ∈ setAdd s k := by
  unfold setAdd
  by_cases hk : k ∈ s <;> simp [hk, h]

theorem mem_foldl_setAdd_of_mem {acc : List String} {a : String}
    (ks : List String) (h : a ∈ acc) : a ∈ ks.foldl setAdd acc := by
  induction ks generalizing acc with
  | nil => simpa using h
  | cons k ks ih => exact ih (mem_setAdd_of_mem k h)

theorem mem_foldl_setAdd_of_mem_keys {ks : List String} {a : String}
    (acc : List String) (h : a ∈ ks) : a ∈ ks.foldl setAdd acc := by
  induction ks generalizing acc with
  | nil => simp at h
  | cons k ks ih =>
    rcases List.mem_cons.mp h with h | h
    · subst h
      exact mem_foldl_setAdd_of_mem ks (mem_setAdd_self acc a)
    · exact ih (setAdd acc k) h

theorem mem_collectKeys_of_mem_acc {acc : List String} {a : String}
    (ids : List String) (h : a ∈ acc) : a ∈ collectKeys ids acc := by
  unfold collectKeys
  induction ids generalizing acc with
  | nil => simpa using h
  | cons i ids ih => exact ih (mem_foldl_setAdd_of_mem _ h)

theorem mem_collectKeys {ids : List String} {i a : String}
    (acc : List String) (hi : i ∈ ids) (ha : a ∈ generateFuzzyKeys i) :
    a ∈ collectKeys ids acc := by
  induction ids generalizing acc with
  | nil => simp at hi
  | cons j ids ih =>
    rcases List.mem_cons.mp hi with h | h
    · subst h
      exact mem_collectKeys_of_mem_acc ids (mem_foldl_setAdd_of_mem_keys acc ha)
    · exact ih _ h

theorem mem_questKeysOf_aux {quests : List QuestV14} {a : String}
    (acc : List String) (h : a ∈ acc) :
    a ∈ quests.foldl (fun acc q => collectKeys (questRefIds q) acc) acc := by
  induction quests generalizing acc with
  | nil => simpa using h
  | cons q qs ih => exact ih _ (mem_collectKeys_of_mem_acc _ h)

theorem mem_questKeysOf {quests : List QuestV14} {q : QuestV14} {i a : String}
    (hq : q ∈ quests) (hi : i ∈ questRefIds q)
    (ha : a ∈ generateFuzzyKeys i) : a ∈ questKeysOf quests := by
  unfold questKeysOf
  generalize hacc : ([] : List String) = acc
  clear hacc
  induction quests generalizing acc with
  | nil => simp at hq
  | cons q' qs ih =>
    rw [List.foldl_cons]
    rcases List.mem_cons.mp hq with h | h
    · subst h
      exact mem_questKeysOf_aux _ (mem_collectKeys acc hi ha)
    · exact ih h _

theorem filter_dropWhile_eq {p w : Char → Bool}
    (hpw : ∀ c, w c = true → p c = false) :
    ∀ l : List Char, (l.dropWhile w).filter p = l.filter p := by
  intro l
  induction l with
  | nil => rfl
  | cons c cs ih =>
    by_cases h : w c
    · rw [List.dropWhile_cons_of_pos h, ih, List.filter_cons_of_neg (by simp [hpw c h])]
    · rw [List.dropWhile_cons_of_neg h]

theorem stripNonAlnum_jsTrim (s : String) :
    stripNonAlnum (jsTrim s) = stripNonAlnum s := by
  have hpw : ∀ c, isWsChar c = true → isAlnumLower c = false := by
    intro c hc
    simp only [isWsChar, Bool.or_eq_true, decide_eq_true_eq] at hc
    rcases hc with ((h | h) | h) | h <;> subst h <;> rfl
  unfold stripNonAlnum jsTrim
  congr 1
  show (((s.toList.dropWhile isWsChar).reverse.dropWhile isWsChar).reverse).filter isAlnumLower
      = s.toList.filter isAlnumLower
  rw [List.filter_reverse, filter_dropWhile_eq hpw, List.filter_reverse,
    List.reverse_reverse, filter_dropWhile_eq hpw]

theorem stripped_mem_generateFuzzyKeys {raw : String} (h : raw ≠ "") :
    stripNonAlnum (jsToLower raw) ∈ generateFuzzyKeys raw := by
  rw [← stripNonAlnum_jsTrim (jsToLower raw)]
  unfold generateFuzzyKeys
  rw [if_neg h]
  simp only []
  set lower := jsTrim (jsToLower raw) with hl
  by_cases harc : startsWithList "arc ".toList lower.toList
  · rw [if_pos harc]
    exact mem_setAdd_of_mem _ (mem_setAdd_of_mem _ (mem_setAdd_self _ _))
  · rw [if_neg harc]
    exact mem_setAdd_of_mem _ (mem_setAdd_self _ _)

theorem generateFuzzyKeys_ne_nil {raw : String} (h : raw ≠ "") :
    generateFuzzyKeys raw ≠ [] := by
  intro hnil
  have := stripped_mem_generateFuzzyKeys h
  rw [hnil] at this
  simp at this

/-! ### Claim theorems -/

/-- C4: the identifier normalization maps "Anvil I", "anvil_1" and
"ANVIL-1" to candidate-key sets sharing at least one common key (the key
"anvil1" lies in all three results). -/
theorem fuzzyKeys_anvil_common_key :
    ∃ key : String,
      key ∈ generateFuzzyKeys "Anvil I" ∧
      key ∈ generateFuzzyKeys "anvil_1" ∧
      key ∈ generateFuzzyKeys "ANVIL-1" :=
  ⟨"anvil1", by decide, by decide, by decide⟩

/-- C10: `generateFuzzyKeys` returns `[]` exactly on the empty (falsy)
input, and on every non-empty input returns a non-empty list that
contains the key obtained by lowercasing the input and deleting every
character outside `a-z`/`0-9`. -/
theorem generateFuzzyKeys_total_spec :
    generateFuzzyKeys "" = [] ∧
    ∀ raw : String, raw ≠ "" →
      generateFuzzyKeys raw ≠ [] ∧
      stripNonAlnum (jsToLower raw) ∈ generateFuzzyKeys raw :=
  ⟨rfl, fun _ h => ⟨generateFuzzyKeys_ne_nil h, stripped_mem_generateFuzzyKeys h⟩⟩

/-- Witness for C10 at the concrete input "Anvil I". -/
theorem generateFuzzyKeys_total_spec_witness :
    ("Anvil I" : String) ≠ "" ∧
    (generateFuzzyKeys "Anvil I" ≠ [] ∧
      stripNonAlnum (jsToLower "Anvil I") ∈ generateFuzzyKeys "Anvil I") :=
  ⟨by decide, generateFuzzyKeys_total_spec.2 "Anvil I" (by decide)⟩

theorem processItemV14_safe_eq (qk pk uk : List String) (r : RawItemV14) :
    (processItemV14 qk pk uk r).isSafeToRecycle =
      (!(processItemV14 qk pk uk r).isQuestItem &&
       !(processItemV14 qk pk uk r).isProjectItem &&
       !(processItemV14 qk pk uk r).isUpgradeItem) := rfl

theorem processItemV14_quest_eq (qk pk uk : List String) (r : RawItemV14) :
    (processItemV14 qk pk uk r).isQuestItem =
      (generateFuzzyKeys (safeIdV14 r)).any (fun k => qk.contains k) := rfl

theorem processItemV14_upgrade_eq (qk pk uk : List String) (r : RawItemV14) :
    (processItemV14 qk pk uk r).isUpgradeItem =
      (generateFuzzyKeys (safeIdV14 r)).any (fun k => uk.contains k) := rfl

theorem processItemV14_project_eq (qk pk uk : List String) (r : RawItemV14) :
    (processItemV14 qk pk uk r).isProjectItem =
      ((generateFuzzyKeys (safeIdV14 r)).any (fun k => pk.contains k) &&
       !(generateFuzzyKeys (safeIdV14 r)).any (fun k => uk.contains k)) := rfl

theorem v14_quest_implies_not_safe (qk pk uk : List String) (r : RawItemV14)
    (h : (processItemV14 qk pk uk r).isQuestItem = true) :
    (processItemV14 qk pk uk r).isSafeToRecycle = false := by
  rw [processItemV14_safe_eq, h]
  rfl

/-- C1 counterexample: the claim fails in the V24 revision's
classification step.  For the item `wire` referenced by a quest, the
`init` linking pass (src/unnamed/part_002 lines 350-354) sets
`isQuestItem = true` but never reassigns `isSafeToRecycle`, which keeps
the `true` set by `normalizeItem` — the two flags are both `true` on this
processed item. -/
theorem v24_quest_item_still_safe :
    (initV24 [wireApiItemV24] [wireQuestV24] [] []).map
      (fun i => (i.isQuestItem, i.isSafeToRecycle)) = [(true, true)] := by
  decide

/-- C1 (amended): in the V14 classification step the claim holds — an
item whose identifier appears (as a truthy entry) in some quest's
objective list is marked `isQuestItem = true` and `isSafeToRecycle =
false`, and every V14-processed item with `isQuestItem = true` has
`isSafeToRecycle = false`.  The V24 init step, however, leaves
`isSafeToRecycle` at its `normalizeItem` default `true`, so there a
quest-referenced item carries both flags (see the counterexample). -/
theorem v14_quest_item_never_safe (quests : List QuestV14)
    (projectKeys upgradeKeys : List String) (r : RawItemV14) (q : QuestV14)
    (hq : q ∈ quests) (hobj : safeIdV14 r ∈ q.objectives)
    (hne : safeIdV14 r ≠ "") :
    ((processItemV14 (questKeysOf quests) projectKeys upgradeKeys r).isQuestItem = true ∧
     (processItemV14 (questKeysOf quests) projectKeys upgradeKeys r).isSafeToRecycle = false) ∧
    (∀ (qk pk uk : List String) (r' : RawItemV14),
       (processItemV14 qk pk uk r').isQuestItem = true →
       (processItemV14 qk pk uk r').isSafeToRecycle = false) := by
  have hi : safeIdV14 r ∈ questRefIds q := by
    unfold questRefIds
    exact List.mem_append_left _ (List.mem_filter.mpr ⟨hobj, by simpa using hne⟩)
  have hqk : stripNonAlnum (jsToLower (safeIdV14 r)) ∈ questKeysOf quests :=
    mem_questKeysOf hq hi (stripped_mem_generateFuzzyKeys hne)
  have hQ : (processItemV14 (questKeysOf quests) projectKeys upgradeKeys r).isQuestItem = true := by
    rw [processItemV14_quest_eq, List.any_eq_true]
    exact ⟨_, stripped_mem_generateFuzzyKeys hne, by simpa using hqk⟩
  exact ⟨⟨hQ, v14_quest_implies_not_safe _ _ _ _ hQ⟩, v14_quest_implies_not_safe⟩

/-- Witness for C1 at the mock item `wire` and a quest whose objective
list contains `wire`. -/
theorem v14_quest_item_never_safe_witness :
    (wireQuestV14 ∈ [wireQuestV14] ∧
     safeIdV14 wireRawV14 ∈ wireQuestV14.objectives ∧
     safeIdV14 wireRawV14 ≠ "") ∧
    ((processItemV14 (questKeysOf [wireQuestV14]) [] [] wireRawV14).isQuestItem = true ∧
     (processItemV14 (questKeysOf [wireQuestV14]) [] [] wireRawV14).isSafeToRecycle = false) :=
  ⟨⟨by decide, by decide, by decide⟩,
    (v14_quest_item_never_safe [wireQuestV14] [] [] wireRawV14 wireQuestV14
      (by decide) (by decide) (by decide)).1⟩

theorem processItemV40_quest_eq (r : RawItemV14) :
    (processItemV40 r).isQuestItem = checkCategory r.name OVERRIDES_QUEST := rfl

theorem processItemV40_project_eq (r : RawItemV14) :
    (processItemV40 r).isProjectItem =
      (!checkCategory r.name OVERRIDES_QUEST &&
        checkCategory r.name OVERRIDES_PROJECT) := rfl

theorem processItemV40_upgrade_eq (r : RawItemV14) :
    (processItemV40 r).isUpgradeItem =
      (!checkCategory r.name OVERRIDES_QUEST &&
       !(!checkCategory r.name OVERRIDES_QUEST &&
          checkCategory r.name OVERRIDES_PROJECT) &&
        checkCategory r.name OVERRIDES_UPGRADE) := rfl

theorem processItemV40_safe_eq (r : RawItemV14) :
    (processItemV40 r).isSafeToRecycle =
      (!(processItemV40 r).isQuestItem && !(processItemV40 r).isProjectItem &&
       !(processItemV40 r).isUpgradeItem) := rfl

/-- C2 counterexample: in the V14 classification step the precedence is
not quest → project → upgrade.  The item `anvil` matches both the project
reference set (via the non-upgrade project "Nice Table") and the upgrade
reference set (via "Bench Upgrade"), yet V14 assigns it the upgrade
category and not the project category: `isUpgrade` is computed without
exclusion and `isProject` is suppressed by `&& !isUpgrade`
(src/src/App.tsx lines 202-204). -/
theorem v14_upgrade_beats_project_on_anvil :
    ((generateFuzzyKeys (safeIdV14 anvilRawV14)).any
        (fun k => (projectKeysOf [tableProjV14, benchProjV14]).contains k) = true) ∧
    ((generateFuzzyKeys (safeIdV14 anvilRawV14)).any
        (fun k => (upgradeKeysOf [tableProjV14, benchProjV14]).contains k) = true) ∧
    (processItemV14 (questKeysOf []) (projectKeysOf [tableProjV14, benchProjV14])
        (upgradeKeysOf [tableProjV14, benchProjV14]) anvilRawV14).isProjectItem = false ∧
    (processItemV14 (questKeysOf []) (projectKeysOf [tableProjV14, benchProjV14])
        (upgradeKeysOf [tableProjV14, benchProjV14]) anvilRawV14).isUpgradeItem = true := by
  decide

/-- C2 (amended): the claimed order holds in the V40 keyword
classification step: a quest match excludes the project and upgrade
categories, a project match without a quest match excludes upgrade — so
an item matching both the project and upgrade keyword lists is assigned
the project category, not upgrade — the upgrade category is assigned
when it alone matches, and an item matching none of the three is
classified safe-to-recycle.  In the V14 classification step an item
matching none of the three reference sets is likewise safe-to-recycle,
but the project/upgrade precedence is reversed: an item matching both
the project and the upgrade reference sets is assigned the upgrade
category, not the project category. -/
theorem classifier_precedence
    (rq : RawItemV14) (hq : checkCategory rq.name OVERRIDES_QUEST = true)
    (rp : RawItemV14)
    (hpq : checkCategory rp.name OVERRIDES_QUEST = false)
    (hpp : checkCategory rp.name OVERRIDES_PROJECT = true)
    (ru : RawItemV14)
    (huq : checkCategory ru.name OVERRIDES_QUEST = false)
    (hup : checkCategory ru.name OVERRIDES_PROJECT = false)
    (huu : checkCategory ru.name OVERRIDES_UPGRADE = true)
    (rs : RawItemV14)
    (hsq : checkCategory rs.name OVERRIDES_QUEST = false)
    (hsp : checkCategory rs.name OVERRIDES_PROJECT = false)
    (hsu : checkCategory rs.name OVERRIDES_UPGRADE = false)
    (qk pk uk : List String) (r : RawItemV14)
    (hpk : (generateFuzzyKeys (safeIdV14 r)).any (fun k => pk.contains k) = true)
    (huk : (generateFuzzyKeys (safeIdV14 r)).any (fun k => uk.contains k) = true)
    (qk2 pk2 uk2 : List String) (r2 : RawItemV14)
    (h2q : (generateFuzzyKeys (safeIdV14 r2)).any (fun k => qk2.contains k) = false)
    (h2p : (generateFuzzyKeys (safeIdV14 r2)).any (fun k => pk2.contains k) = false)
    (h2u : (generateFuzzyKeys (safeIdV14 r2)).any (fun k => uk2.contains k) = false) :
    ((processItemV40 rq).isQuestItem = true ∧
     (processItemV40 rq).isProjectItem = false ∧
     (processItemV40 rq).isUpgradeItem = false ∧
     (processItemV40 rq).isSafeToRecycle = false) ∧
    ((processItemV40 rp).isQuestItem = false ∧
     (processItemV40 rp).isProjectItem = true ∧
     (processItemV40 rp).isUpgradeItem = false) ∧
    ((processItemV40 ru).isUpgradeItem = true ∧
     (processItemV40 ru).isSafeToRecycle = false) ∧
    ((processItemV40 rs).isQuestItem = false ∧
     (processItemV40 rs).isProjectItem = false ∧
     (processItemV40 rs).isUpgradeItem = false ∧
     (processItemV40 rs).isSafeToRecycle = true) ∧
    ((processItemV14 qk pk uk r).isUpgradeItem = true ∧
     (processItemV14 qk pk uk r).isProjectItem = false) ∧
    ((processItemV14 qk2 pk2 uk2 r2).isSafeToRecycle = true) := by
  refine ⟨⟨?_, ?_, ?_, ?_⟩, ⟨?_, ?_, ?_⟩, ⟨?_, ?_⟩, ⟨?_, ?_, ?_, ?_⟩, ⟨?_, ?_⟩, ?_⟩
  · rw [processItemV40_quest_eq, hq]
  · rw [processItemV40_project_eq, hq]
    rfl
  · rw [processItemV40_upgrade_eq, hq]
    rfl
  · rw [processItemV40_safe_eq, processItemV40_quest_eq, hq]
    rfl
  · rw [processItemV40_quest_eq, hpq]
  · rw [processItemV40_project_eq, hpq, hpp]
    rfl
  · rw [processItemV40_upgrade_eq, hpq, hpp]
    simp
  · rw [processItemV40_upgrade_eq, huq, hup, huu]
    rfl
  · rw [processItemV40_safe_eq, processItemV40_upgrade_eq, huq, hup, huu]
    simp
  · rw [processItemV40_quest_eq, hsq]
  · rw [processItemV40_project_eq, hsq, hsp]
    rfl
  · rw [processItemV40_upgrade_eq, hsq, hsp, hsu]
    rfl
  · rw [processItemV40_safe_eq, processItemV40_quest_eq, processItemV40_project_eq,
      processItemV40_upgrade_eq, hsq, hsp, hsu]
    rfl
  · rw [processItemV14_upgrade_eq, huk]
  · rw [processItemV14_project_eq, hpk, huk]
    rfl
  · rw [processItemV14_safe_eq, processItemV14_quest_eq, processItemV14_project_eq,
      processItemV14_upgrade_eq, h2q, h2p, h2u]
    rfl

/-- Witness for C2: "Adrenaline" matches a QUEST keyword, "Anvil Wire"
matches both PROJECT and UPGRADE keywords but no QUEST keyword, "Anvil"
matches only an UPGRADE keyword, "Mystery Orb" matches nothing; the item
`anvil` has its key in both concrete V14 reference sets, and matches
none of the empty sets. -/
theorem classifier_precedence_witness :
    (checkCategory adrenalineRawV40.name OVERRIDES_QUEST = true ∧
     checkCategory anvilWireRawV40.name OVERRIDES_QUEST = false ∧
     checkCategory anvilWireRawV40.name OVERRIDES_PROJECT = true ∧
     checkCategory anvilRawV14.name OVERRIDES_QUEST = false ∧
     checkCategory anvilRawV14.name OVERRIDES_PROJECT = false ∧
     checkCategory anvilRawV14.name OVERRIDES_UPGRADE = true ∧
     checkCategory orbRawV40.name OVERRIDES_QUEST = false ∧
     checkCategory orbRawV40.name OVERRIDES_PROJECT = false ∧
     checkCategory orbRawV40.name OVERRIDES_UPGRADE = false ∧
     (generateFuzzyKeys (safeIdV14 anvilRawV14)).any
       (fun k => (["anvil"] : List String).contains k) = true ∧
     (generateFuzzyKeys (safeIdV14 anvilRawV14)).any
       (fun k => ([] : List String).contains k) = false) ∧
    (((processItemV40 adrenalineRawV40).isQuestItem = true ∧
      (processItemV40 adrenalineRawV40).isProjectItem = false ∧
      (processItemV40 adrenalineRawV40).isUpgradeItem = false ∧
      (processItemV40 adrenalineRawV40).isSafeToRecycle = false) ∧
     ((processItemV40 anvilWireRawV40).isQuestItem = false ∧
      (processItemV40 anvilWireRawV40).isProjectItem = true ∧
      (processItemV40 anvilWireRawV40).isUpgradeItem = false) ∧
     ((processItemV40 anvilRawV14).isUpgradeItem = true ∧
      (processItemV40 anvilRawV14).isSafeToRecycle = false) ∧
     ((processItemV40 orbRawV40).isQuestItem = false ∧
      (processItemV40 orbRawV40).isProjectItem = false ∧
      (processItemV40 orbRawV40).isUpgradeItem = false ∧
      (processItemV40 orbRawV40).isSafeToRecycle = true) ∧
     ((processItemV14 [] ["anvil"] ["anvil"] anvilRawV14).isUpgradeItem = true ∧
      (processItemV14 [] ["anvil"] ["anvil"] anvilRawV14).isProjectItem = false) ∧
     ((processItemV14 [] [] [] anvilRawV14).isSafeToRecycle = true)) :=
  ⟨⟨by decide, by decide, by decide, by decide, by decide, by decide, by decide,
    by decide, by decide, by decide, by decide⟩,
   classifier_precedence adrenalineRawV40 (by decide)
     anvilWireRawV40 (by decide) (by decide)
     anvilRawV14 (by decide) (by decide) (by decide)
     orbRawV40 (by decide) (by decide) (by decide)
     [] ["anvil"] ["anvil"] anvilRawV14 (by decide) (by decide)
     [] [] [] anvilRawV14 (by decide) (by decide) (by decide)⟩

/-- C3: an item whose candidate keys match no key of the quest, project
or upgrade reference sets is classified safe-to-recycle (with all three
category flags false) in the V14 classification step, and likewise an
item whose name matches none of the three OVERRIDES keyword lists is
classified safe-to-recycle in the V40 classification step; the
classifiers are total functions, so no item fails classification. -/
theorem no_match_is_safe_to_recycle (quests : List QuestV14)
    (projects : List ProjectV14) (r : RawItemV14)
    (h : ∀ k ∈ generateFuzzyKeys (safeIdV14 r),
        k ∉ questKeysOf quests ∧ k ∉ projectKeysOf projects ∧
        k ∉ upgradeKeysOf projects)
    (r40 : RawItemV14)
    (hq40 : checkCategory r40.name OVERRIDES_QUEST = false)
    (hp40 : checkCategory r40.name OVERRIDES_PROJECT = false)
    (hu40 : checkCategory r40.name OVERRIDES_UPGRADE = false) :
    ((processItemV14 (questKeysOf quests) (projectKeysOf projects)
        (upgradeKeysOf projects) r).isSafeToRecycle = true ∧
     (processItemV14 (questKeysOf quests) (projectKeysOf projects)
        (upgradeKeysOf projects) r).isQuestItem = false ∧
     (processItemV14 (questKeysOf quests) (projectKeysOf projects)
        (upgradeKeysOf projects) r).isProjectItem = false ∧
     (processItemV14 (questKeysOf quests) (projectKeysOf projects)
        (upgradeKeysOf projects) r).isUpgradeItem = false) ∧
    ((processItemV40 r40).isSafeToRecycle = true) := by
  have hq : (generateFuzzyKeys (safeIdV14 r)).any
      (fun k => (questKeysOf quests).contains k) = false := by
    rw [List.any_eq_false]
    intro k hk
    simpa using (h k hk).1
  have hp : (generateFuzzyKeys (safeIdV14 r)).any
      (fun k => (projectKeysOf projects).contains k) = false := by
    rw [List.any_eq_false]
    intro k hk
    simpa using (h k hk).2.1
  have hu : (generateFuzzyKeys (safeIdV14 r)).any
      (fun k => (upgradeKeysOf projects).contains k) = false := by
    rw [List.any_eq_false]
    intro k hk
    simpa using (h k hk).2.2
  refine ⟨⟨?_, ?_, ?_, ?_⟩, ?_⟩
  · rw [processItemV14_safe_eq, processItemV14_quest_eq, processItemV14_project_eq,
      processItemV14_upgrade_eq, hq, hp, hu]
    rfl
  · rw [processItemV14_quest_eq, hq]
  · rw [processItemV14_project_eq, hp, hu]
    rfl
  · rw [processItemV14_upgrade_eq, hu]
  · rw [processItemV40_safe_eq, processItemV40_quest_eq, processItemV40_project_eq,
      processItemV40_upgrade_eq, hq40, hp40, hu40]
    rfl

/-- Witness for C3 at the item `anvil` against datasets that only
reference `wire`, and at the V40 name "Mystery Orb" matching no keyword
list. -/
theorem no_match_is_safe_to_recycle_witness :
    (∀ k ∈ generateFuzzyKeys (safeIdV14 anvilRawV14),
        k ∉ questKeysOf [wireQuestV14] ∧ k ∉ projectKeysOf [benchWireProjV14] ∧
        k ∉ upgradeKeysOf [benchWireProjV14]) ∧
    ((processItemV14 (questKeysOf [wireQuestV14]) (projectKeysOf [benchWireProjV14])
        (upgradeKeysOf [benchWireProjV14]) anvilRawV14).isSafeToRecycle = true ∧
     (processItemV40 ⟨none, some "mystery_orb", "Mystery Orb", none, none, "",
        none, none, none⟩).isSafeToRecycle = true) := by
  have happ := no_match_is_safe_to_recycle [wireQuestV14] [benchWireProjV14]
    anvilRawV14 (by decide)
    ⟨none, some "mystery_orb", "Mystery Orb", none, none, "", none, none, none⟩
    (by decide) (by decide) (by decide)
  exact ⟨by decide, happ.1.1, happ.2⟩

/-- C5 counterexample: the V14 pipeline on the mock item
`{id:"wire", name:"Wire"}` and the mock project
`{name:"Bench Upgrade", cost:[{item:"wire", count:2}]}` does flag the
item `isUpgradeItem = true`, but the processed item's reverse
`usedInProjects` list does not contain the project: V14 fills
`usedInQuests`/`usedInProjects` with empty lists
(src/src/App.tsx lines 222-223, "Simplified for performance"), so the
item appears in no reverse used-in list, with no count at all. -/
theorem v14_wire_missing_from_used_list :
    (processAllV14 [] [benchWireProjV14] [some wireRawV14]).map
      (fun i => (i.isUpgradeItem, i.usedInProjects.contains "Bench Upgrade")) =
      [(true, false)] := by decide

/-- C5 (amended): on the mock item `{id:"wire", name:"Wire"}` and mock
project `{name:"Bench Upgrade", cost:[{item:"wire", count:2}]}` with no
quest data, the V14 pipeline produces an item with `isUpgradeItem = true`
whose reverse `usedInProjects` list is left empty; in the V24 revision
the item is likewise flagged `isUpgradeItem = true` and its
`computedUsedInProjects` reverse list contains the project name
"Bench Upgrade" (the reverse list stores project names, not counts). -/
theorem wire_bench_upgrade_pipeline :
    (processAllV14 [] [benchWireProjV14] [some wireRawV14]).map
      (fun i => (i.isUpgradeItem, i.usedInProjects)) = [(true, [])] ∧
    (initV24 [wireApiItemV24] [] [] [benchProjV24]).map
      (fun i => (i.isUpgradeItem, i.computedUsedInProjects)) =
      [(true, ["Bench Upgrade"])] := by decide

theorem localeLe_total : ∀ a b : String, localeLe a b ∨ localeLe b a := by
  intro a b
  rcases lt_trichotomy (jsToLower a) (jsToLower b) with h | h | h
  · exact Or.inl (Or.inl h)
  · rcases le_total a b with h2 | h2
    · exact Or.inl (Or.inr ⟨h, h2⟩)
    · exact Or.inr (Or.inr ⟨h.symm, h2⟩)
  · exact Or.inr (Or.inl h)

theorem localeLe_trans :
    ∀ a b c : String, localeLe a b → localeLe b c → localeLe a c := by
  intro a b c hab hbc
  rcases hab with h1 | ⟨h1, h1'⟩
  · rcases hbc with h2 | ⟨h2, h2'⟩
    · exact Or.inl (lt_trans h1 h2)
    · exact Or.inl (h2 ▸ h1)
  · rcases hbc with h2 | ⟨h2, h2'⟩
    · exact Or.inl (h1 ▸ h2)
    · exact Or.inr ⟨h1.trans h2, le_trans h1' h2'⟩

/-- C6: for every item list and search string, sorting with the
"Value (High)" option yields a list whose `sell_value` fields are
non-increasing, and sorting with the "Name" option yields a list whose
names are non-decreasing in the case-insensitive lexicographic order, in
both the V40 and the V24 revisions of the `categories` sort. -/
theorem sort_value_and_name_orders
    (items40 : List ProcessedItemV40) (items24 : List ProcessedItemV24)
    (search : String) :
    (sortedItemsV40 .valueHigh search items40).Pairwise
      (fun a b => b.sell_value ≤ a.sell_value) ∧
    (sortedItemsV40 .nameOpt search items40).Pairwise
      (fun a b => jsToLower a.name ≤ jsToLower b.name) ∧
    (sortedItemsV24 .valueHigh search items24).Pairwise
      (fun a b => b.sell_value ≤ a.sell_value) ∧
    (sortedItemsV24 .nameOpt search items24).Pairwise
      (fun a b => jsToLower a.name ≤ jsToLower b.name) := by
  refine ⟨?_, ?_, ?_, ?_⟩
  · haveI : IsTotal ProcessedItemV40 (sortLeV40 .valueHigh) :=
      ⟨fun a b => le_total b.sell_value a.sell_value⟩
    haveI : IsTrans ProcessedItemV40 (sortLeV40 .valueHigh) :=
      ⟨fun a b c h1 h2 => le_trans h2 h1⟩
    exact List.sorted_insertionSort (sortLeV40 .valueHigh) _
  · haveI : IsTotal ProcessedItemV40 (sortLeV40 .nameOpt) :=
      ⟨fun a b => localeLe_total a.name b.name⟩
    haveI : IsTrans ProcessedItemV40 (sortLeV40 .nameOpt) :=
      ⟨fun a b c h1 h2 => localeLe_trans a.name b.name c.name h1 h2⟩
    refine List.Pairwise.imp ?_
      (List.sorted_insertionSort (sortLeV40 .nameOpt)
        (items40.filter (fun i => strIncludes (jsToLower i.name) (jsToLower search))))
    intro a b hab
    rcases hab with h | ⟨h, _⟩
    · exact le_of_lt h
    · exact le_of_eq h
  · haveI : IsTotal ProcessedItemV24 (sortLeV24 .valueHigh) :=
      ⟨fun a b => le_total b.sell_value a.sell_value⟩
    haveI : IsTrans ProcessedItemV24 (sortLeV24 .valueHigh) :=
      ⟨fun a b c h1 h2 => le_trans h2 h1⟩
    exact List.sorted_insertionSort (sortLeV24 .valueHigh) _
  · haveI : IsTotal ProcessedItemV24 (sortLeV24 .nameOpt) :=
      ⟨fun a b => localeLe_total a.name b.name⟩
    haveI : IsTrans ProcessedItemV24 (sortLeV24 .nameOpt) :=
      ⟨fun a b c h1 h2 => localeLe_trans a.name b.name c.name h1 h2⟩
    refine List.Pairwise.imp ?_
      (List.sorted_insertionSort (sortLeV24 .nameOpt)
        (items24.filter (fun i => strIncludes (jsToLower i.name) (jsToLower search))))
    intro a b hab
    rcases hab with h | ⟨h, _⟩
    · exact le_of_lt h
    · exact le_of_eq h

/-- C7 counterexample: the claim fails for the V40 revision's load.  With
a cached entry only 1 ms old (well inside the one-hour window), the V40
load still reports a network fetch and returns the network result, not
the cached data: it unconditionally removes the cache key and re-fetches
(src/unnamed/part_001 line 379). -/
theorem v40_load_ignores_fresh_cache :
    ((1 : Int) - 0 < CACHE_DURATION) ∧
    (loadV40 (CacheState.valid ⟨0, ["cached"]⟩) 1 []).didFetch = true ∧
    (loadV40 (CacheState.valid ⟨0, ["cached"]⟩) 1 []).items = [] :=
  ⟨by decide, rfl, rfl⟩

/-- C7 (amended): in the V14 and V2 revisions the claim holds — a load
that finds a parsed cache entry younger than the one-hour
`CACHE_DURATION` returns the cached items without fetching, and a load
that finds an entry at least that old fetches and stores a fresh
timestamped entry.  The V40 revision removes the cache key
unconditionally and always re-fetches (see the counterexample). -/
theorem cache_load_fresh_and_stale {α : Type} (e : CacheEntry α) (now : Int)
    (fetched : List α) :
    (now - e.timestamp < CACHE_DURATION →
      loadWithCache (.valid e) now fetched = ⟨e.data, false, none⟩) ∧
    (¬(now - e.timestamp < CACHE_DURATION) →
      loadWithCache (.valid e) now fetched = ⟨fetched, true, some ⟨now, fetched⟩⟩) := by
  constructor
  · intro h
    simp [loadWithCache, h]
  · intro h
    simp [loadWithCache, h]

/-- Witness for C7: a 5 ms old entry is served from cache; a 3600005 ms
old entry triggers a re-fetch and a fresh store. -/
theorem cache_load_fresh_and_stale_witness :
    ((5 : Int) - 0 < CACHE_DURATION ∧
      loadWithCache (CacheState.valid ⟨0, ["a"]⟩) 5 ["b"] = ⟨["a"], false, none⟩) ∧
    (¬((3600005 : Int) - 0 < CACHE_DURATION) ∧
      loadWithCache (CacheState.valid ⟨0, ["a"]⟩) 3600005 ["b"] =
        ⟨["b"], true, some ⟨3600005, ["b"]⟩⟩) :=
  ⟨⟨by decide, (cache_load_fresh_and_stale ⟨0, ["a"]⟩ 5 ["b"]).1 (by decide)⟩,
   ⟨by decide, (cache_load_fresh_and_stale ⟨0, ["a"]⟩ 3600005 ["b"]).2 (by decide)⟩⟩

/-- C8 counterexample: in the V14 revision a network failure on an
auxiliary dataset fetch does not yield the empty list for that dataset —
the rejected promise escapes to the enclosing catch and the whole load
aborts (and likewise for a parse failure of an OK response).  Only the
non-OK branch yields `[]` there. -/
theorem v14_aux_network_failure_aborts :
    fetchAuxV14 (ListFetch.netFail : ListFetch ProjectV14) = Except.error () ∧
    fetchAuxV14 (ListFetch.netFail : ListFetch ProjectV14) ≠ Except.ok (some []) ∧
    fetchAuxV14 (ListFetch.okParseFail : ListFetch ProjectV14) = Except.error () :=
  ⟨rfl, by simp [fetchAuxV14], rfl⟩

/-- C8 (amended): the V40 `fetchJson` and V24 `fetchStatic` helpers map a
network failure, a non-OK response and an unparseable response all to the
empty list; the V14 inline fetch yields `[]` only for a non-OK response,
a network or parse failure aborting the whole load instead.  Downstream,
the V14 classification of an item given empty datasets equals its
classification given datasets containing no matching references. -/
theorem aux_failure_empty_and_no_match_equiv {α : Type} (o : ListFetch α)
    (ho : o = .netFail ∨ o = .notOk ∨ o = .okParseFail)
    (quests : List QuestV14) (projects : List ProjectV14) (r : RawItemV14)
    (h : ∀ k ∈ generateFuzzyKeys (safeIdV14 r),
        k ∉ questKeysOf quests ∧ k ∉ projectKeysOf projects ∧
        k ∉ upgradeKeysOf projects) :
    (fetchJsonV40 o = [] ∧ fetchStaticV24 o = .list []) ∧
    fetchAuxV14 (ListFetch.notOk : ListFetch α) = .ok (some []) ∧
    processItemV14 (questKeysOf quests) (projectKeysOf projects)
        (upgradeKeysOf projects) r =
      processItemV14 (questKeysOf []) (projectKeysOf []) (upgradeKeysOf []) r := by
  refine ⟨⟨?_, ?_⟩, rfl, ?_⟩
  · rcases ho with h' | h' | h' <;> subst h' <;> rfl
  · rcases ho with h' | h' | h' <;> subst h' <;> rfl
  · have hq : (generateFuzzyKeys (safeIdV14 r)).any
        (fun k => (questKeysOf quests).contains k) = false := by
      rw [List.any_eq_false]
      intro k hk
      simpa using (h k hk).1
    have hp : (generateFuzzyKeys (safeIdV14 r)).any
        (fun k => (projectKeysOf projects).contains k) = false := by
      rw [List.any_eq_false]
      intro k hk
      simpa using (h k hk).2.1
    have hu : (generateFuzzyKeys (safeIdV14 r)).any
        (fun k => (upgradeKeysOf projects).contains k) = false := by
      rw [List.any_eq_false]
      intro k hk
      simpa using (h k hk).2.2
    have hq0 : (generateFuzzyKeys (safeIdV14 r)).any
        (fun k => (questKeysOf []).contains k) = false := by
      simp [questKeysOf]
    have hp0 : (generateFuzzyKeys (safeIdV14 r)).any
        (fun k => (projectKeysOf []).contains k) = false := by
      simp [projectKeysOf]
    have hu0 : (generateFuzzyKeys (safeIdV14 r)).any
        (fun k => (upgradeKeysOf []).contains k) = false := by
      simp [upgradeKeysOf]
    unfold processItemV14
    simp only []
    rw [hq, hp, hu, hq0, hp0, hu0]

/-- Witness for C8 at a network-failure outcome and the item `anvil`
against datasets referencing only `wire`. -/
theorem aux_failure_empty_and_no_match_equiv_witness :
    ((ListFetch.netFail : ListFetch ProjectV14) = ListFetch.netFail ∨
     (ListFetch.netFail : ListFetch ProjectV14) = ListFetch.notOk ∨
     (ListFetch.netFail : ListFetch ProjectV14) = ListFetch.okParseFail) ∧
    (∀ k ∈ generateFuzzyKeys (safeIdV14 anvilRawV14),
        k ∉ questKeysOf [wireQuestV14] ∧ k ∉ projectKeysOf [benchWireProjV14] ∧
        k ∉ upgradeKeysOf [benchWireProjV14]) ∧
    ((fetchJsonV40 (ListFetch.netFail : ListFetch ProjectV14) = [] ∧
      fetchStaticV24 (ListFetch.netFail : ListFetch ProjectV14) = .list []) ∧
     fetchAuxV14 (ListFetch.notOk : ListFetch ProjectV14) = .ok (some []) ∧
     processItemV14 (questKeysOf [wireQuestV14]) (projectKeysOf [benchWireProjV14])
         (upgradeKeysOf [benchWireProjV14]) anvilRawV14 =
       processItemV14 (questKeysOf []) (projectKeysOf []) (upgradeKeysOf [])
         anvilRawV14) :=
  ⟨Or.inl rfl, by decide,
   aux_failure_empty_and_no_match_equiv (ListFetch.netFail : ListFetch ProjectV14)
     (Or.inl rfl) [wireQuestV14] [benchWireProjV14] anvilRawV14 (by decide)⟩

/-- C9: a per-item detail fetch that fails on the network, gets a non-OK
response or fails to parse yields `null`, and on a `null` result the V24
detail view falls back to the already-known summary item record
unchanged. -/
theorem detail_failure_falls_back (item : ProcessedItemV24) (f : DetailFetch)
    (hf : f = .netFail ∨ f = .notOk ∨ f = .parseFail) :
    fetchGithubDetail f = none ∧
    goDetailShown item (fetchGithubDetail f) = item := by
  rcases hf with h | h | h <;> subst h <;> exact ⟨rfl, rfl⟩

/-- Witness for C9 at the `wire` summary item and a network failure. -/
theorem detail_failure_falls_back_witness :
    (DetailFetch.netFail = DetailFetch.netFail ∨
     DetailFetch.netFail = DetailFetch.notOk ∨
     DetailFetch.netFail = DetailFetch.parseFail) ∧
    (fetchGithubDetail .netFail = none ∧
     goDetailShown (normalizeItem wireApiItemV24 ⟨[], []⟩)
       (fetchGithubDetail .netFail) = normalizeItem wireApiItemV24 ⟨[], []⟩) :=
  ⟨Or.inl rfl,
   detail_failure_falls_back (normalizeItem wireApiItemV24 ⟨[], []⟩)
     DetailFetch.netFail (Or.inl rfl)⟩
